import Mathlib

/-!
Verification of the StateChain Entity transfer protocol and storage layer
(server sources: protocol/transfer.rs, storage/db.rs).

The Rust code is shallowly embedded: database rows become association
lists keyed by ids, each protocol entry point becomes a Lean function
returning its result together with the updated database (individual SQL
statements persist even when a later step fails, so errors do not roll the
state back), and the secp256k1 scalar field becomes `ZMod secq`.  The
curve group of secp256k1 is cyclic of prime order `secq`, so curve points
are represented by their discrete logarithms: the generator is `1`,
point-scalar multiplication is field multiplication, and point equality
is equality in `ZMod secq`.  Randomness (`x1`, fresh uuids) and the
current time are passed as explicit arguments.
-/

set_option linter.all false

namespace Mercury

/-- The order of the secp256k1 group (curv's `FE::q()`). -/
def secq : Nat :=
  115792089237316195423570985008687907852837564279074904382605163141518161494337

/-- Scalars modulo the curve order (curv's `FE`). -/
abbrev FE := ZMod secq

/-- Curve points, represented by their discrete logarithm (curv's `GE`). -/
abbrev GE := ZMod secq

/-- Fuel-based extended Euclid: `xgcdAuxF fuel a b = (g, x, y)` with
`x * a + y * b = g = gcd a b` (for enough fuel).  Structural recursion on
the fuel keeps it kernel-evaluable. -/
def xgcdAuxF : Nat → Nat → Nat → Int × Int × Int
  | 0, a, _ => ((a : Int), 1, 0)
  | fuel+1, a, b =>
    if b = 0 then ((a : Int), 1, 0)
    else
      let q : Nat := a / b
      let r : Nat := a % b
      let t := xgcdAuxF fuel b r
      (t.1, t.2.2, t.2.1 - (q : Int) * t.2.2)

/-- Modular inverse of a scalar (curv's `FE::invert`). -/
def FE.invert (a : FE) : FE :=
  (((xgcdAuxF 1000 a.val secq).2.1 : Int) : FE)

/-- Generator of the curve group (`ECPoint::generator()`), discrete log 1. -/
def gGE : GE := 1

/-- Ids (`Uuid`), modelled as naturals. -/
abbrev Uuid := Nat

/-- Error types of `crate::error::DBErrorType` used by the storage layer. -/
inductive DBErrorType where
  | NoDataForID
  | UpdateFailed
  | ConnectionFailed
  deriving DecidableEq, Repr

/-- The server error type `SEError` (the variants reached by the embedded
code paths). -/
inductive SEError where
  | Generic (msg : String)
  | AuthError
  | DBError (t : DBErrorType)
  | SharedLibError (msg : String)
  deriving DecidableEq, Repr

/-- A state chain signature (`shared_lib` `StateChainSig`): purpose, data
(next proof key or withdraw address) and the DER signature. Chain entries
have the same shape, so the statechain is a list of these. -/
structure StateChainSig where
  purpose : String
  data : String
  sig : String
  deriving DecidableEq, Repr

/-- One transaction input: the previous-output txid (the only part of
`bitcoin::TxIn` the embedded code reads). -/
abbrev TxIn := String

/-- A Bitcoin transaction, reduced to the parts the embedded code reads. -/
structure Transaction where
  input : List TxIn
  deriving DecidableEq, Repr

/-- `BatchData` carried by `TransferMsg4`. -/
structure BatchData where
  id : Uuid
  commitment : String
  deriving DecidableEq, Repr

/-- `TransferMsg1` (transfer_sender request). -/
structure TransferMsg1 where
  shared_key_id : Uuid
  state_chain_sig : StateChainSig
  deriving DecidableEq, Repr

/-- `TransferMsg2` (transfer_sender response); the ECIES encryption to the
sender's proof key is opaque end-to-end data and is modelled as identity. -/
structure TransferMsg2 where
  x1 : FE
  proof_key : String
  deriving DecidableEq, Repr

/-- `TransferMsg4` (transfer_receiver request). -/
structure TransferMsg4 where
  shared_key_id : Uuid
  state_chain_id : Uuid
  t2 : FE
  state_chain_sig : StateChainSig
  o2_pub : GE
  tx_backup : Transaction
  batch_data : Option BatchData
  deriving DecidableEq, Repr

/-- `TransferMsg5` (transfer_receiver response). -/
structure TransferMsg5 where
  new_shared_key_id : Uuid
  s2_pub : GE
  deriving DecidableEq, Repr

/-- `TransferFinalizeData` (protocol/transfer.rs). -/
structure TransferFinalizeData where
  new_shared_key_id : Uuid
  state_chain_id : Uuid
  state_chain_sig : StateChainSig
  s2 : FE
  new_tx_backup : Transaction
  batch_data : Option BatchData
  deriving DecidableEq, Repr

/-! ## Database rows

Each SQL table becomes an association list from id to a row record.
Columns that every reached write sets are modelled as plain fields;
columns that may still be NULL when the embedded code reads them are
`Option`s (a NULL read surfaces as `NoDataForID`, see `get_item_from_row`
in db.rs). -/

/-- A `UserSession` row. -/
structure UserSessionRow where
  statechainid : Option Uuid
  proofkey : Option String
  s2 : Option FE
  txbackup : Option Transaction
  authentication : Option String
  deriving DecidableEq, Repr

/-- An `Ecdsa` row (the columns read by `get_ecdsa_keypair`).
`party1private` stands for the stored `Party1Private`, of which the code
only reads the secret scalar via `get_private_key()`. -/
structure EcdsaRow where
  party1private : Option FE
  party2public : Option GE
  deriving DecidableEq, Repr

/-- A `StateChain` row. -/
structure StateChainRow where
  chain : List StateChainSig
  amount : Int
  ownerid : Uuid
  lockeduntil : Int
  deriving DecidableEq, Repr

/-- A `Transfer` row (created with both columns set by `create_transfer`). -/
structure TransferRow where
  statechainsig : StateChainSig
  x1 : FE
  deriving DecidableEq, Repr

/-- A `TransferBatch` row. -/
structure TransferBatchRow where
  starttime : Int
  statechains : List (Uuid × Bool)
  finalizeddata : List TransferFinalizeData
  punishedstatechains : List Uuid
  finalized : Bool
  deriving DecidableEq, Repr

/-- A `Root` row: the id column is the BIGSERIAL key of the association
list, the row holds the hash value and optional commitment info (both kept
abstract as naturals / an optional natural). -/
structure RootRow where
  value : Nat
  commitmentinfo : Option Nat
  deriving DecidableEq, Repr

/-- A `Root` as passed around by db.rs (`shared_lib::Root`): optional id,
hash value, optional commitment info. -/
structure Root where
  id : Option Nat
  value : Nat
  commitmentinfo : Option Nat
  deriving DecidableEq, Repr

/-- `Root::is_confirmed` — the spec: commitment_info is set. -/
def Root.is_confirmed (r : Root) : Bool := r.commitmentinfo.isSome

/-- The database state: one association list per SQL table, plus the
BIGSERIAL sequence counter of the Root table and the SMT key-value store. -/
structure DB where
  usersession : List (Uuid × UserSessionRow)
  ecdsa : List (Uuid × EcdsaRow)
  statechain : List (Uuid × StateChainRow)
  transfer : List (Uuid × TransferRow)
  transferbatch : List (Uuid × TransferBatchRow)
  root : List (Nat × RootRow)
  rootSerial : Nat
  backuptxs : List (Uuid × Transaction)
  smt : List (String × String)
  deriving DecidableEq, Repr

deriving instance DecidableEq for Except

/-- First-match lookup in an association list (SQL `SELECT ... WHERE id = $1`,
primary keys are unique so at most one row matches). -/
def lookupT {α : Type} (l : List (Nat × α)) (id : Nat) : Option α :=
  match l with
  | [] => none
  | p :: rest => if p.1 = id then some p.2 else lookupT rest id

/-- Replace the row at `id` (SQL `UPDATE ... WHERE id = $1`). -/
def setT {α : Type} (l : List (Nat × α)) (id : Nat) (v : α) : List (Nat × α) :=
  l.map (fun p => if p.1 = id then (p.1, v) else p)

/-- `HashMap::insert`: replace the value if the key is present, otherwise
append the pair. -/
def insertMap (l : List (Uuid × Bool)) (k : Uuid) (v : Bool) : List (Uuid × Bool) :=
  match l with
  | [] => [(k, v)]
  | p :: rest => if p.1 = k then (k, v) :: rest else p :: insertMap rest k v

/-- A non-database effect oracle: signature verification on statechain
entries and the SMT root hash function, both outside the given sources. -/
structure Oracle where
  sigVerify : String → StateChainSig → Bool
  smtRootHash : List (String × String) → Nat

/-! ## storage/db.rs operations -/

/-- `PGDatabase::remove`: `DELETE FROM table WHERE id = $1`, returning
`UpdateFailed` when no row was deleted. -/
def removeRow {α : Type} (l : List (Nat × α)) (id : Nat) :
    Except SEError (List (Nat × α)) :=
  match lookupT l id with
  | none => .error (.DBError .UpdateFailed)
  | some _ => .ok (l.filter (fun p => p.1 ≠ id))

/-- `Database::remove_transfer_data`: `remove` on the Transfer table. -/
def remove_transfer_data (db : DB) (state_chain_id : Uuid) :
    Except SEError Unit × DB :=
  match removeRow db.transfer state_chain_id with
  | .error e => (.error e, db)
  | .ok l => (.ok (), { db with transfer := l })

/-- `Database::transfer_is_completed`: the Transfer row exists. -/
def transfer_is_completed (db : DB) (state_chain_id : Uuid) : Bool :=
  (lookupT db.transfer state_chain_id).isSome

/-- `Database::get_transfer_data`: Err `NoDataForID` when the row is
missing. -/
def get_transfer_data (db : DB) (state_chain_id : Uuid) :
    Except SEError TransferRow :=
  match lookupT db.transfer state_chain_id with
  | none => .error (.DBError .NoDataForID)
  | some tr => .ok tr

/-- `Database::create_transfer`: insert a Transfer row and set its
signature and `x1` columns. -/
def create_transfer (db : DB) (state_chain_id : Uuid)
    (state_chain_sig : StateChainSig) (x1 : FE) : DB :=
  { db with transfer := db.transfer ++ [(state_chain_id,
      { statechainsig := state_chain_sig, x1 := x1 })] }

/-- `Database::get_statechain_id`: the UserSession row's StateChainId
column (missing row or NULL column yield `NoDataForID`). -/
def get_statechain_id (db : DB) (user_id : Uuid) : Except SEError Uuid :=
  match lookupT db.usersession user_id with
  | none => .error (.DBError .NoDataForID)
  | some s =>
    match s.statechainid with
    | none => .error (.DBError .NoDataForID)
    | some scid => .ok scid

/-- `Database::get_proof_key`. -/
def get_proof_key (db : DB) (user_id : Uuid) : Except SEError String :=
  match lookupT db.usersession user_id with
  | none => .error (.DBError .NoDataForID)
  | some s =>
    match s.proofkey with
    | none => .error (.DBError .NoDataForID)
    | some pk => .ok pk

/-- The result of `Database::get_statechain_owner`. -/
structure StateChainOwner where
  locked_until : Int
  owner_id : Uuid
  chain : List StateChainSig
  deriving DecidableEq, Repr

/-- `Database::get_statechain_owner`. -/
def get_statechain_owner (db : DB) (state_chain_id : Uuid) :
    Except SEError StateChainOwner :=
  match lookupT db.statechain state_chain_id with
  | none => .error (.DBError .NoDataForID)
  | some row => .ok { locked_until := row.lockeduntil,
                      owner_id := row.ownerid, chain := row.chain }

/-- `Database::get_statechain` (the chain column). -/
def get_statechain (db : DB) (state_chain_id : Uuid) :
    Except SEError (List StateChainSig) :=
  match lookupT db.statechain state_chain_id with
  | none => .error (.DBError .NoDataForID)
  | some row => .ok row.chain

/-- `Database::update_statechain_owner`: set the chain and owner columns
(`UpdateFailed` when the row is missing, as in `PGDatabase::update`). -/
def update_statechain_owner (db : DB) (state_chain_id : Uuid)
    (chain : List StateChainSig) (new_user_id : Uuid) :
    Except SEError Unit × DB :=
  match lookupT db.statechain state_chain_id with
  | none => (.error (.DBError .UpdateFailed), db)
  | some row =>
    let row2 := { row with chain := chain, ownerid := new_user_id }
    (.ok (), { db with statechain := setT db.statechain state_chain_id row2 })

/-- The result of `Database::get_ecdsa_keypair`. -/
structure ECDSAKeypair where
  party_1_private : FE
  party_2_public : GE
  deriving DecidableEq, Repr

/-- `Database::get_ecdsa_keypair`: Err `NoDataForID` when the row is
missing or either column is NULL. -/
def get_ecdsa_keypair (db : DB) (user_id : Uuid) :
    Except SEError ECDSAKeypair :=
  match lookupT db.ecdsa user_id with
  | none => .error (.DBError .NoDataForID)
  | some row =>
    match row.party1private, row.party2public with
    | some s1, some p2 => .ok { party_1_private := s1, party_2_public := p2 }
    | _, _ => .error (.DBError .NoDataForID)

/-- The result of `Database::get_finalize_batch_data`. -/
structure TransferFinalizeBatchData where
  state_chains : List (Uuid × Bool)
  finalized_data_vec : List TransferFinalizeData
  start_time : Int
  deriving DecidableEq, Repr

/-- `Database::get_finalize_batch_data`. -/
def get_finalize_batch_data (db : DB) (batch_id : Uuid) :
    Except SEError TransferFinalizeBatchData :=
  match lookupT db.transferbatch batch_id with
  | none => .error (.DBError .NoDataForID)
  | some row => .ok { state_chains := row.statechains,
                      finalized_data_vec := row.finalizeddata,
                      start_time := row.starttime }

/-- `Database::update_finalize_batch_data`: set the StateChains and
FinalizedData columns. -/
def update_finalize_batch_data (db : DB) (batch_id : Uuid)
    (state_chains : List (Uuid × Bool))
    (finalized_data_vec : List TransferFinalizeData) :
    Except SEError Unit × DB :=
  match lookupT db.transferbatch batch_id with
  | none => (.error (.DBError .UpdateFailed), db)
  | some row =>
    let row2 := { row with statechains := state_chains,
                           finalizeddata := finalized_data_vec }
    (.ok (), { db with transferbatch := setT db.transferbatch batch_id row2 })

/-- `Database::update_backup_tx`: set the TxBackup column of the
BackupTxs row. -/
def update_backup_tx (db : DB) (state_chain_id : Uuid) (tx : Transaction) :
    Except SEError Unit × DB :=
  match lookupT db.backuptxs state_chain_id with
  | none => (.error (.DBError .UpdateFailed), db)
  | some _ =>
    (.ok (), { db with backuptxs := setT db.backuptxs state_chain_id tx })

/-- `Database::transfer_init_user_session`: insert a new UserSession row
and set its columns from the finalize data.  A duplicate primary key makes
the SQL INSERT fail; note that db.rs also stores a `theta` column that the
`TransferFinalizeData` struct of protocol/transfer.rs does not carry, so
only the fields of that struct are stored here. -/
def transfer_init_user_session (db : DB) (new_user_id : Uuid)
    (state_chain_id : Uuid) (fd : TransferFinalizeData) :
    Except SEError Unit × DB :=
  match lookupT db.usersession new_user_id with
  | some _ => (.error (.Generic "duplicate key"), db)
  | none =>
    (.ok (), { db with usersession := db.usersession ++ [(new_user_id,
      { statechainid := some state_chain_id,
        proofkey := some fd.state_chain_sig.data,
        s2 := some fd.s2,
        txbackup := some fd.new_tx_backup,
        authentication := some "auth" })] })

/-- `Database::root_insert`: `INSERT INTO Root (value, commitmentinfo)`;
the id column is BIGSERIAL, so the sequence counter assigns the id and the
id carried by the `Root` argument is ignored. -/
def root_insert (db : DB) (root : Root) : DB :=
  { db with rootSerial := db.rootSerial + 1,
            root := db.root ++ [(db.rootSerial + 1,
              { value := root.value, commitmentinfo := root.commitmentinfo })] }

/-- `Database::root_get_current_id`: `SELECT MAX(id)`, 0 when the table is
empty. -/
def root_get_current_id (db : DB) : Nat :=
  (db.root.map (fun p => p.1)).foldr max 0

/-- `Database::get_root`: `None` for id 0, Err `NoDataForID` when the row
is missing. -/
def get_root (db : DB) (id : Nat) : Except SEError (Option Root) :=
  if id = 0 then .ok none
  else
    match lookupT db.root id with
    | none => .error (.DBError .NoDataForID)
    | some row => .ok (some { id := some id, value := row.value,
                              commitmentinfo := row.commitmentinfo })

/-- `Database::root_update`: for a root carrying an id, require the stored
root at that id to have the same hash, then insert; for a fresh root,
insert with id MAX+1 (the BIGSERIAL still assigns the actual id). -/
def root_update (db : DB) (rt : Root) : Except SEError Nat × DB :=
  match rt.id with
  | some id =>
    (match get_root db id with
     | .error e => (.error e, db)
     | .ok none =>
       (.error (.Generic "error updating existing root - root not found"), db)
     | .ok (some r) =>
       if r.value ≠ rt.value then
         (.error (.Generic "error updating existing root - hashes do not match"), db)
       else
         (.ok id, root_insert db { rt with id := some id }))
  | none =>
    let id := root_get_current_id db + 1
    (.ok id, root_insert db { rt with id := some id })

/-- `Database::get_confirmed_smt_root` scan: try ids from `cur` down to 1,
returning the first confirmed root. -/
def confirmed_scan (db : DB) : List Nat → Except SEError (Option Root)
  | [] => .ok none
  | id :: rest =>
    match get_root db id with
    | .error e => .error e
    | .ok none => confirmed_scan db rest
    | .ok (some r) =>
      if r.is_confirmed then .ok (some r) else confirmed_scan db rest

/-- `Database::get_confirmed_smt_root`: loop `i` in `0..=current_id - 1`
with `id = current_id - i`, i.e. ids `current_id, ..., 1`. -/
def get_confirmed_smt_root (db : DB) : Except SEError (Option Root) :=
  confirmed_scan db ((List.range (root_get_current_id db)).map
    (fun i => root_get_current_id db - i))

/-! ## Helpers outside src (modelled from the spec) -/

/-- Modelled from the spec: `check_user_auth` (protocol/util.rs, absent
from the sources).  The session/auth layer authenticates per `user_id`;
AuthError is "missing/invalid user_id", so authentication succeeds exactly
when a UserSession row with that id exists. -/
def check_user_auth (db : DB) (user_id : Uuid) : Except SEError Unit :=
  if (lookupT db.usersession user_id).isSome then .ok ()
  else .error .AuthError

/-- Modelled from the spec: `is_locked` (shared_lib state_chain, absent
from the sources).  transfer_sender checks `locked_until ≤ now`; a locked
chain yields the SharedLibError lock message seen in the tests. -/
def is_locked (locked_until now : Int) : Except SEError Unit :=
  if now < locked_until then
    .error (.SharedLibError "Error: State Chain locked for 1 minutes.")
  else .ok ()

/-- Modelled from the spec: `transfer_batch_is_ended`
(protocol/transfer_batch.rs, absent from the sources).  A batch has ended
when `now > start_time + batch_lifetime`. -/
def transfer_batch_is_ended (start_time batch_lifetime now : Int) : Bool :=
  now > start_time + batch_lifetime

/-- Modelled from the spec: `StateChain::add` (shared_lib, absent from the
sources).  Appends the new entry after validating its signature against
the previous entry's `data` as public key (spec 4.6, invariant I1). -/
def StateChain.add (o : Oracle) (chain : List StateChainSig)
    (sig : StateChainSig) : Except SEError (List StateChainSig) :=
  match chain.getLast? with
  | none => .error (.Generic "StateChain empty")
  | some prev =>
    if o.sigVerify prev.data sig then .ok (chain ++ [sig])
    else .error (.Generic "Invalid StateChainSig")

/-- Modelled from the spec: `Storage::update_smt` (storage/mod.rs, absent
from the sources).  Inserts `funding_txid → proof_key` into the SMT
key-value store, computes the new root hash (oracle) and appends a fresh
`Root` through `root_update`.  Returns `(prev_root, new_root)` hashes. -/
def update_smt (o : Oracle) (db : DB) (funding_txid proof_key : String) :
    Except SEError (Option Nat × Nat) × DB :=
  let prev := (lookupT db.root (root_get_current_id db)).map
    (fun r => r.value)
  let smt2 := db.smt ++ [(funding_txid, proof_key)]
  let new_hash := o.smtRootHash smt2
  let db2 := { db with smt := smt2 }
  match root_update db2 { id := none, value := new_hash,
                          commitmentinfo := none } with
  | (.error e, db3) => (.error e, db3)
  | (.ok _, db3) => (.ok (prev, new_hash), db3)

/-! ## protocol/transfer.rs -/

/-- `Transfer::transfer_sender`.  The sampled `x1` and the current time
are explicit arguments; the result state is returned alongside the result
(SQL statements already executed persist on error). -/
def transfer_sender (db : DB) (msg : TransferMsg1) (x1 : FE) (now : Int) :
    Except SEError TransferMsg2 × DB :=
  match check_user_auth db msg.shared_key_id with
  | .error e => (.error e, db)
  | .ok _ =>
  match get_statechain_id db msg.shared_key_id with
  | .error e => (.error e, db)
  | .ok state_chain_id =>
  if transfer_is_completed db state_chain_id then
    (.error (.Generic "Transfer already completed. Waiting for finalize."), db)
  else
  match get_statechain_owner db state_chain_id with
  | .error e => (.error e, db)
  | .ok sco =>
  match is_locked sco.locked_until now with
  | .error e => (.error e, db)
  | .ok _ =>
  if sco.owner_id ≠ msg.shared_key_id then
    (.error (.Generic "State Chain not owned by User ID."), db)
  else
  let db2 := create_transfer db state_chain_id msg.state_chain_sig x1
  match get_proof_key db2 msg.shared_key_id with
  | .error e => (.error e, db2)
  | .ok proof_key => (.ok { x1 := x1, proof_key := proof_key }, db2)

/-- `Transfer::transfer_finalize`. -/
def transfer_finalize (o : Oracle) (db : DB) (fd : TransferFinalizeData) :
    Except SEError Unit × DB :=
  let state_chain_id := fd.state_chain_id
  match get_statechain db state_chain_id with
  | .error e => (.error e, db)
  | .ok chain =>
  match StateChain.add o chain fd.state_chain_sig with
  | .error e => (.error e, db)
  | .ok chain2 =>
  let new_user_id := fd.new_shared_key_id
  match update_statechain_owner db state_chain_id chain2 new_user_id with
  | (.error e, db2) => (.error e, db2)
  | (.ok _, db2) =>
  match transfer_init_user_session db2 new_user_id state_chain_id fd with
  | (.error e, db3) => (.error e, db3)
  | (.ok _, db3) =>
  match update_backup_tx db3 state_chain_id fd.new_tx_backup with
  | (.error e, db4) => (.error e, db4)
  | (.ok _, db4) =>
  match fd.new_tx_backup.input.head? with
  | none => (.error (.Generic "panic: empty input"), db4)
  | some funding_txid =>
  match chain2.getLast? with
  | none => (.error (.Generic "StateChain empty"), db4)
  | some last_entry =>
  match update_smt o db4 funding_txid last_entry.data with
  | (.error e, db5) => (.error e, db5)
  | (.ok _, db5) =>
  match remove_transfer_data db5 state_chain_id with
  | (.error e, db6) => (.error e, db6)
  | (.ok _, db6) => (.ok (), db6)

/-- `Transfer::transfer_receiver`.  `new_shared_key_id` (the fresh uuid),
the configured `batch_lifetime` and the current time are explicit
arguments. -/
def transfer_receiver (o : Oracle) (db : DB) (msg : TransferMsg4)
    (new_shared_key_id : Uuid) (batch_lifetime now : Int) :
    Except SEError TransferMsg5 × DB :=
  let state_chain_id := msg.state_chain_id
  match get_transfer_data db state_chain_id with
  | .error e => (.error e, db)
  | .ok td =>
  if td.statechainsig ≠ msg.state_chain_sig then
    (.error (.Generic "State chain siganture provided does not match state chain at id"), db)
  else
  match get_ecdsa_keypair db msg.shared_key_id with
  | .error e => (.error e, db)
  | .ok kp =>
  let t2 := msg.t2
  let s1 := kp.party_1_private
  let s2 : FE := t2 * (FE.invert td.x1) * s1
  if s2.val ≥ secq / 3 then
    (.error (.Generic "Invalid o2, try again."), db)
  else
  let s2_pub : GE := gGE * s2
  let p1_pub : GE := kp.party_2_public * s1
  let p2_pub : GE := msg.o2_pub * s2
  if p1_pub ≠ p2_pub then
    (.error (.Generic "Transfer protocol error: P1 != P2"), db)
  else
  let fd : TransferFinalizeData :=
    { new_shared_key_id := new_shared_key_id,
      state_chain_id := state_chain_id,
      state_chain_sig := td.statechainsig,
      s2 := s2,
      new_tx_backup := msg.tx_backup,
      batch_data := msg.batch_data }
  match msg.batch_data with
  | some bd =>
    (match get_finalize_batch_data db bd.id with
     | .error e => (.error e, db)
     | .ok tbd =>
       if transfer_batch_is_ended tbd.start_time batch_lifetime now then
         (.error (.Generic "Transfer batch ended. Too late to complete transfer."), db)
       else
         let sc2 := insertMap tbd.state_chains state_chain_id true
         let fdv2 := tbd.finalized_data_vec ++ [fd]
         match update_finalize_batch_data db bd.id sc2 fdv2 with
         | (.error e, db2) => (.error e, db2)
         | (.ok _, db2) =>
           (.ok { new_shared_key_id := new_shared_key_id, s2_pub := s2_pub }, db2))
  | none =>
    match transfer_finalize o db fd with
    | (.error e, db2) => (.error e, db2)
    | (.ok _, db2) =>
      (.ok { new_shared_key_id := new_shared_key_id, s2_pub := s2_pub }, db2)

/-! ## Derived definitions used by the statements -/

/-- A sequence of `root_update` calls, returning the list of assigned ids
of the successful calls and the final state. -/
def rootUpdateSeq (db : DB) : List Root → List Nat × DB
  | [] => ([], db)
  | r :: rs =>
    match root_update db r with
    | (.ok id, db2) =>
      let t := rootUpdateSeq db2 rs
      (id :: t.1, t.2)
    | (.error _, db2) => rootUpdateSeq db2 rs

/-- The ids `[c, c-1, ..., 1]`, the order in which
`get_confirmed_smt_root` scans the Root table. -/
def descList : Nat → List Nat
  | 0 => []
  | n+1 => (n+1) :: descList n

/-! ## Concrete data for witnesses and counterexamples -/

/-- A transfer statechain signature over the new proof key. -/
def sigW : StateChainSig := { purpose := "TRANSFER", data := "pknew", sig := "s1" }

/-- The existing last statechain entry. -/
def entW : StateChainSig := { purpose := "TRANSFER", data := "pk0", sig := "s0" }

/-- A backup transaction spending one funding outpoint. -/
def txW : Transaction := { input := ["txid0"] }

/-- A concrete oracle: every signature verifies, the SMT root hash is the
store size. -/
def oW : Oracle := { sigVerify := fun _ _ => true, smtRootHash := fun l => l.length }

/-- Base state for receiver-side witnesses: pending transfer for state
chain 9 with x1 = 1, ECDSA keypair for user 5 with s1 = 1 and
party2_public = 1, no user sessions. -/
def dbW : DB :=
  { usersession := [],
    ecdsa := [(5, { party1private := some 1, party2public := some 1 })],
    statechain := [(9, { chain := [entW], amount := 10000, ownerid := 5,
                         lockeduntil := 0 })],
    transfer := [(9, { statechainsig := sigW, x1 := 1 })],
    transferbatch := [],
    root := [],
    rootSerial := 0,
    backuptxs := [(9, txW)],
    smt := [] }

/-- A receiver request matching `dbW`: t2 = 1, o2_pub = 1, no batch. -/
def msgW : TransferMsg4 :=
  { shared_key_id := 5, state_chain_id := 9, t2 := 1, state_chain_sig := sigW,
    o2_pub := 1, tx_backup := txW, batch_data := none }

/-- `dbW` without the ECDSA row of user 5. -/
def dbW_noecdsa : DB := { dbW with ecdsa := [] }

/-- `dbW` with party2_public = 2, so that P1 = 2 and P2 = 1 differ. -/
def dbW_badpoint : DB :=
  { dbW with ecdsa := [(5, { party1private := some 1, party2public := some 2 })] }

/-- A request whose t2 makes s2 = secq - 1 ≥ floor(secq/3). -/
def msgW_bigt2 : TransferMsg4 := { msgW with t2 := ((secq - 1 : Nat) : FE) }

/-- Sender-side witness state: user 5 owns state chain 9, which already
has a pending transfer. -/
def sessW : UserSessionRow :=
  { statechainid := some 9, proofkey := some "pk0", s2 := none,
    txbackup := none, authentication := some "auth" }

def dbW_sender : DB := { dbW with usersession := [(5, sessW)] }

/-- `dbW_sender` without the pending transfer and with the state chain
locked until time 100. -/
def scRowLocked : StateChainRow :=
  { chain := [entW], amount := 10000, ownerid := 5, lockeduntil := 100 }

def dbW_locked : DB :=
  { dbW_sender with transfer := [], statechain := [(9, scRowLocked)] }

/-- A sender request from user 5. -/
def msgW_sender : TransferMsg1 := { shared_key_id := 5, state_chain_sig := sigW }

/-- `dbW` with an active transfer batch 3 whose state_chains map is empty. -/
def batchRowW : TransferBatchRow :=
  { starttime := 0, statechains := [], finalizeddata := [],
    punishedstatechains := [], finalized := false }

def dbW_batch : DB := { dbW with transferbatch := [(3, batchRowW)] }

/-- The receiver request of `msgW` as part of batch 3. -/
def msgW_batch : TransferMsg4 :=
  { msgW with batch_data := some { id := 3, commitment := "" } }

/-- An empty database. -/
def dbEmpty : DB :=
  { usersession := [], ecdsa := [], statechain := [], transfer := [],
    transferbatch := [], root := [], rootSerial := 0, backuptxs := [],
    smt := [] }

/-- Root table for the C7 existing-id witness. -/
def dbW_root : DB :=
  { dbEmpty with root := [(1, { value := 11, commitmentinfo := none })],
                 rootSerial := 1 }

/-- Root table for the C8 witness: ids 1..3, only id 2 confirmed. -/
def dbW_roots : DB :=
  { dbEmpty with
    root := [(1, { value := 10, commitmentinfo := none }),
             (2, { value := 20, commitmentinfo := some 7 }),
             (3, { value := 30, commitmentinfo := none })],
    rootSerial := 3 }

/-- The `TransferFinalizeData` that transfer_receiver builds from the
stored transfer data, the stored keypair and the request. -/
def receiverFinalizeData (msg : TransferMsg4) (td : TransferRow)
    (kp : ECDSAKeypair) (nid : Uuid) : TransferFinalizeData :=
  { new_shared_key_id := nid,
    state_chain_id := msg.state_chain_id,
    state_chain_sig := td.statechainsig,
    s2 := msg.t2 * FE.invert td.x1 * kp.party_1_private,
    new_tx_backup := msg.tx_backup,
    batch_data := msg.batch_data }

/-- The `TransferMsg5` that transfer_receiver returns on success. -/
def receiverMsg5 (msg : TransferMsg4) (td : TransferRow) (kp : ECDSAKeypair)
    (nid : Uuid) : TransferMsg5 :=
  { new_shared_key_id := nid,
    s2_pub := gGE * (msg.t2 * FE.invert td.x1 * kp.party_1_private) }

/-- A TransferBatch row after transfer_receiver enrolls a state chain:
`state_chains[state_chain_id] = true` and the finalize data appended. -/
def batchRowAfterEnroll (row : TransferBatchRow) (scid : Uuid)
    (fd : TransferFinalizeData) : TransferBatchRow :=
  { row with statechains := insertMap row.statechains scid true,
             finalizeddata := row.finalizeddata ++ [fd] }

/-- The full database after a batch enrollment by transfer_receiver:
only the TransferBatch row changes. -/
def enrollResultDB (db : DB) (bid : Uuid) (row : TransferBatchRow)
    (scid : Uuid) (fd : TransferFinalizeData) : DB :=
  { db with transferbatch := setT db.transferbatch bid (batchRowAfterEnroll row scid fd) }

/-- Fresh roots for the C7 witness. -/
def rootA : Root := { id := none, value := 11, commitmentinfo := none }

def rootB : Root := { id := none, value := 22, commitmentinfo := none }

/-- A root carrying the existing id 1 with the stored hash 11. -/
def rootC : Root := { id := some 1, value := 11, commitmentinfo := some 7 }

/-! ## Helper lemmas -/

theorem lookupT_mem {α : Type} {l : List (Nat × α)} {id : Nat} {v : α}
    (h : lookupT l id = some v) : (id, v) ∈ l := by
  induction l with
  | nil => simp [lookupT] at h
  | cons p rest ih =>
    rw [lookupT] at h
    by_cases hp : p.1 = id
    · rw [if_pos hp] at h
      cases h
      obtain ⟨a, b⟩ := p
      simp only at hp
      subst hp
      exact List.mem_cons_self _ _
    · rw [if_neg hp] at h
      exact List.mem_cons_of_mem _ (ih h)

theorem lookupT_filter_ne {α : Type} (l : List (Nat × α)) (id : Nat) :
    lookupT (l.filter (fun p => p.1 ≠ id)) id = none := by
  induction l with
  | nil => rfl
  | cons p rest ih =>
    simp only [List.filter_cons, ne_eq, decide_not] at ih ⊢
    by_cases hp : p.1 = id
    · simpa [hp] using ih
    · simpa [hp, lookupT] using ih

theorem insertMap_of_lookup_none {l : List (Uuid × Bool)} {k : Uuid}
    (h : lookupT l k = none) (v : Bool) : insertMap l k v = l ++ [(k, v)] := by
  induction l with
  | nil => rfl
  | cons p rest ih =>
    rw [lookupT] at h
    by_cases hp : p.1 = k
    · rw [if_pos hp] at h
      cases h
    · rw [if_neg hp] at h
      rw [insertMap, if_neg hp, ih h]
      rfl

theorem lookupT_append_right {α : Type} {l : List (Nat × α)} {id : Nat}
    (h : lookupT l id = none) (v : α) :
    lookupT (l ++ [(id, v)]) id = some v := by
  induction l with
  | nil => simp [lookupT]
  | cons p rest ih =>
    rw [lookupT] at h
    by_cases hp : p.1 = id
    · rw [if_pos hp] at h
      cases h
    · rw [if_neg hp] at h
      rw [List.cons_append, lookupT, if_neg hp]
      exact ih h

theorem lookupT_append_some {α : Type} {l : List (Nat × α)} {k : Nat} {w : α}
    (h : lookupT l k = some w) (l2 : List (Nat × α)) :
    lookupT (l ++ l2) k = some w := by
  induction l with
  | nil => simp [lookupT] at h
  | cons p rest ih =>
    rw [lookupT] at h
    rw [List.cons_append, lookupT]
    by_cases hp : p.1 = k
    · rw [if_pos hp] at h ⊢
      exact h
    · rw [if_neg hp] at h ⊢
      exact ih h

theorem removeRow_ok {α : Type} {l l2 : List (Nat × α)} {id : Nat}
    (h : removeRow l id = .ok l2) : lookupT l2 id = none := by
  unfold removeRow at h
  cases hl : lookupT l id with
  | none => rw [hl] at h; cases h
  | some w =>
    rw [hl] at h
    cases h
    exact lookupT_filter_ne l id

theorem remove_transfer_data_ok {db : DB} {id : Uuid} {u : Unit} {db2 : DB}
    (h : remove_transfer_data db id = (.ok u, db2)) :
    lookupT db2.transfer id = none := by
  unfold remove_transfer_data at h
  cases hl : removeRow db.transfer id with
  | error e => rw [hl] at h; simp at h
  | ok l2 =>
    rw [hl] at h
    have h2 : db2.transfer = l2 := by
      cases h
      rfl
    rw [h2]
    exact removeRow_ok hl

/-! ## Claim theorems -/

/-- C10: `PGDatabase::remove` is not a silent no-op: deleting a row whose
id is absent returns an `UpdateFailed` error, and in particular
`remove_transfer_data` on a state_chain_id with no pending TransferData
returns that error and leaves the state unchanged. -/
theorem C10_remove_update_failed :
    (∀ (α : Type) (l : List (Nat × α)) (id : Nat), lookupT l id = none →
      removeRow l id = .error (.DBError .UpdateFailed)) ∧
    (∀ (db : DB) (state_chain_id : Uuid),
      lookupT db.transfer state_chain_id = none →
      remove_transfer_data db state_chain_id =
        (.error (.DBError .UpdateFailed), db)) := by
  constructor
  · intro α l id h
    unfold removeRow
    rw [h]
  · intro db state_chain_id h
    unfold remove_transfer_data removeRow
    rw [h]

theorem C10_witness :
    removeRow ([] : List (Nat × TransferRow)) 0 =
      .error (.DBError .UpdateFailed) ∧
    remove_transfer_data dbEmpty 9 = (.error (.DBError .UpdateFailed), dbEmpty) :=
  ⟨C10_remove_update_failed.1 TransferRow [] 0 (by decide),
   C10_remove_update_failed.2 dbEmpty 9 (by decide)⟩

/-- C3: when the recomputed public points disagree
(P1 = party2_public * s1 differs from P2 = o2_pub * s2), transfer_receiver
fails with the protocol error "P1 != P2" and the state — in particular the
stored TransferData for that state_chain_id — is unchanged: no enrollment,
no finalize, no removal. -/
theorem C3_p1_neq_p2 (o : Oracle) (db : DB) (msg : TransferMsg4)
    (nid : Uuid) (bl now : Int) (td : TransferRow) (kp : ECDSAKeypair)
    (hlook : lookupT db.transfer msg.state_chain_id = some td)
    (hsig : td.statechainsig = msg.state_chain_sig)
    (hkp : get_ecdsa_keypair db msg.shared_key_id = .ok kp)
    (hlt : (msg.t2 * FE.invert td.x1 * kp.party_1_private).val < secq / 3)
    (hne : kp.party_2_public * kp.party_1_private ≠
      msg.o2_pub * (msg.t2 * FE.invert td.x1 * kp.party_1_private)) :
    transfer_receiver o db msg nid bl now =
      (.error (.Generic "Transfer protocol error: P1 != P2"), db) := by
  unfold transfer_receiver
  simp only [get_transfer_data, hlook, hkp, hsig]
  rw [if_neg (by simp)]
  rw [if_neg (not_le.mpr hlt)]
  rw [if_pos hne]

theorem C3_witness :
    lookupT dbW_badpoint.transfer msgW.state_chain_id =
      some { statechainsig := sigW, x1 := 1 } ∧
    transfer_receiver oW dbW_badpoint msgW 7 3600 0 =
      (.error (.Generic "Transfer protocol error: P1 != P2"), dbW_badpoint) :=
  ⟨by decide,
   C3_p1_neq_p2 oW dbW_badpoint msgW 7 3600 0
     { statechainsig := sigW, x1 := 1 }
     { party_1_private := 1, party_2_public := 2 }
     (by decide) (by decide) (by decide) (by decide) (by decide)⟩

/-- C4: transfer_receiver computes the new server key share as
s2 = t2 * x1⁻¹ * s1, with x1 from the stored TransferData and s1 the
stored party-1 private share, and rejects the call with an error whenever
the integer value of s2 is at least floor(secq/3), for every input t2
(the request, hence t2, is universally quantified). -/
theorem C4_lindell_check (o : Oracle) (db : DB) (msg : TransferMsg4)
    (nid : Uuid) (bl now : Int) (td : TransferRow) (kp : ECDSAKeypair)
    (hlook : lookupT db.transfer msg.state_chain_id = some td)
    (hsig : td.statechainsig = msg.state_chain_sig)
    (hkp : get_ecdsa_keypair db msg.shared_key_id = .ok kp)
    (hge : (msg.t2 * FE.invert td.x1 * kp.party_1_private).val ≥ secq / 3) :
    transfer_receiver o db msg nid bl now =
      (.error (.Generic "Invalid o2, try again."), db) := by
  unfold transfer_receiver
  simp only [get_transfer_data, hlook, hkp, hsig]
  rw [if_neg (by simp)]
  rw [if_pos hge]

theorem C4_witness :
    ((msgW_bigt2.t2 * FE.invert (1 : FE) * (1 : FE)).val ≥ secq / 3) ∧
    transfer_receiver oW dbW msgW_bigt2 7 3600 0 =
      (.error (.Generic "Invalid o2, try again."), dbW) :=
  ⟨by decide,
   C4_lindell_check oW dbW msgW_bigt2 7 3600 0
     { statechainsig := sigW, x1 := 1 }
     { party_1_private := 1, party_2_public := 1 }
     (by decide) (by decide) (by decide) (by decide)⟩

/-- C5: a transfer_sender request on a state chain whose locked_until lies
in the future (no pending TransferData) fails with the lock error and the
state — in particular the Transfer table — is unchanged, so no
TransferData is created.  The lock check `is_locked` comes from shared_lib
and is modelled from the spec (`locked_until ≤ now`). -/
theorem C5_statechain_locked (db : DB) (msg : TransferMsg1) (x1 : FE)
    (now : Int) (scid : Uuid) (sco : StateChainOwner)
    (hauth : (lookupT db.usersession msg.shared_key_id).isSome = true)
    (hscid : get_statechain_id db msg.shared_key_id = .ok scid)
    (hnc : transfer_is_completed db scid = false)
    (howner : get_statechain_owner db scid = .ok sco)
    (hlock : now < sco.locked_until) :
    transfer_sender db msg x1 now =
      (.error (.SharedLibError "Error: State Chain locked for 1 minutes."), db) := by
  unfold transfer_sender check_user_auth is_locked
  simp only [hauth, if_true, hscid, hnc, howner]
  rw [if_neg (by simp)]
  rw [if_pos hlock]

theorem C5_witness :
    transfer_is_completed dbW_locked 9 = false ∧
    (0 : Int) < scRowLocked.lockeduntil ∧
    transfer_sender dbW_locked msgW_sender 1 0 =
      (.error (.SharedLibError "Error: State Chain locked for 1 minutes."),
        dbW_locked) :=
  ⟨by decide, by decide,
   C5_statechain_locked dbW_locked msgW_sender 1 0 9
     { locked_until := 100, owner_id := 5, chain := [entW] }
     (by decide) (by decide) (by decide) (by decide) (by decide)⟩

/-- C2: (1) a transfer_sender call on a state chain that already has a
TransferData entry fails with the transfer-already-initiated error (the
code surfaces it as the Generic message "Transfer already completed.
Waiting for finalize.") and changes nothing; (2) transfer_sender can only
create a Transfer row at a state_chain_id that had none (invariant I4);
(3) a successful transfer_finalize removes the TransferData of its state
chain, which is what permits a later transfer_sender to create a new one. -/
theorem C2_transfer_already_initiated :
    (∀ (db : DB) (msg : TransferMsg1) (x1 : FE) (now : Int) (scid : Uuid),
      (lookupT db.usersession msg.shared_key_id).isSome = true →
      get_statechain_id db msg.shared_key_id = .ok scid →
      transfer_is_completed db scid = true →
      transfer_sender db msg x1 now =
        (.error (.Generic "Transfer already completed. Waiting for finalize."), db)) ∧
    (∀ (db : DB) (msg : TransferMsg1) (x1 : FE) (now : Int) (k : Uuid),
      lookupT (transfer_sender db msg x1 now).2.transfer k ≠
        lookupT db.transfer k →
      lookupT db.transfer k = none) ∧
    (∀ (o : Oracle) (db : DB) (fd : TransferFinalizeData),
      (transfer_finalize o db fd).1 = .ok () →
      lookupT (transfer_finalize o db fd).2.transfer fd.state_chain_id = none) := by
  refine ⟨?_, ?_, ?_⟩
  · intro db msg x1 now scid hauth hscid hcompl
    unfold transfer_sender check_user_auth
    simp only [hauth, if_true, hscid, hcompl, if_true]
  · intro db msg x1 now k h
    unfold transfer_sender at h
    cases hc1 : check_user_auth db msg.shared_key_id with
    | error e => simp [hc1] at h
    | ok u =>
      rw [hc1] at h
      cases hc2 : get_statechain_id db msg.shared_key_id with
      | error e => simp [hc2] at h
      | ok scid =>
        rw [hc2] at h
        by_cases hc3 : transfer_is_completed db scid = true
        · simp [hc3] at h
        · simp only [Bool.not_eq_true] at hc3
          simp only [hc3, Bool.false_eq_true, if_false] at h
          cases hc4 : get_statechain_owner db scid with
          | error e => simp [hc4] at h
          | ok sco =>
            rw [hc4] at h
            cases hc5 : is_locked sco.locked_until now with
            | error e => simp [hc5] at h
            | ok v =>
              simp only [hc5] at h
              by_cases hc6 : sco.owner_id = msg.shared_key_id
              · simp only [hc6, ne_eq, not_true_eq_false, if_false] at h
                cases hl : lookupT db.transfer k with
                | none => rfl
                | some w =>
                  cases hc7 : get_proof_key
                      (create_transfer db scid msg.state_chain_sig x1)
                      msg.shared_key_id with
                  | error e =>
                    rw [hc7] at h
                    simp only [create_transfer] at h
                    exact absurd ((lookupT_append_some hl _).trans hl.symm) h
                  | ok pk =>
                    rw [hc7] at h
                    simp only [create_transfer] at h
                    exact absurd ((lookupT_append_some hl _).trans hl.symm) h
              · simp [hc6] at h
  · intro o db fd h
    unfold transfer_finalize at h ⊢
    simp only [] at h ⊢
    cases hc1 : get_statechain db fd.state_chain_id with
    | error e => rw [hc1] at h; simp at h
    | ok chain =>
      rw [hc1] at h
      simp only [] at h ⊢
      cases hc2 : StateChain.add o chain fd.state_chain_sig with
      | error e => rw [hc2] at h; simp at h
      | ok chain2 =>
        rw [hc2] at h
        simp only [] at h ⊢
        cases hu3 : update_statechain_owner db fd.state_chain_id chain2
            fd.new_shared_key_id with
        | mk r3 db3 =>
          rw [hu3] at h
          cases r3 with
          | error e => simp at h
          | ok v3 =>
            simp only [] at h ⊢
            cases hu4 : transfer_init_user_session db3 fd.new_shared_key_id
                fd.state_chain_id fd with
            | mk r4 db4 =>
              rw [hu4] at h
              cases r4 with
              | error e => simp at h
              | ok v4 =>
                simp only [] at h ⊢
                cases hu5 : update_backup_tx db4 fd.state_chain_id
                    fd.new_tx_backup with
                | mk r5 db5 =>
                  rw [hu5] at h
                  cases r5 with
                  | error e => simp at h
                  | ok v5 =>
                    simp only [] at h ⊢
                    cases hh : fd.new_tx_backup.input.head? with
                    | none => rw [hh] at h; simp at h
                    | some txid =>
                      rw [hh] at h
                      simp only [] at h ⊢
                      cases hlast : chain2.getLast? with
                      | none => rw [hlast] at h; simp at h
                      | some last_entry =>
                        rw [hlast] at h
                        simp only [] at h ⊢
                        cases hu6 : update_smt o db5 txid last_entry.data with
                        | mk r6 db6 =>
                          rw [hu6] at h
                          cases r6 with
                          | error e => simp at h
                          | ok v6 =>
                            simp only [] at h ⊢
                            cases hu7 : remove_transfer_data db6
                                fd.state_chain_id with
                            | mk r7 db7 =>
                              rw [hu7] at h
                              cases r7 with
                              | error e => simp at h
                              | ok v7 =>
                                simp only [] at h ⊢
                                exact remove_transfer_data_ok hu7

theorem C2_witness :
    transfer_is_completed dbW_sender 9 = true ∧
    transfer_sender dbW_sender msgW_sender 1 0 =
      (.error (.Generic "Transfer already completed. Waiting for finalize."),
        dbW_sender) :=
  ⟨by decide,
   C2_transfer_already_initiated.1 dbW_sender msgW_sender 1 0 9
     (by decide) (by decide) (by decide)⟩

/-- C1 (amended): transfer_receiver performs no user-session
authentication.  When the request's shared_key_id has no stored ECDSA
keypair the call fails with the NoDataForID database error — not
AuthError — and only after loading the TransferData and checking the
state-chain signature; the state is unchanged.  (A shared_key_id with no
user session but with an ECDSA row succeeds outright, see the
counterexample.) -/
theorem C1_receiver_no_auth (o : Oracle) (db : DB) (msg : TransferMsg4)
    (nid : Uuid) (bl now : Int) (td : TransferRow)
    (hlook : lookupT db.transfer msg.state_chain_id = some td)
    (hsig : td.statechainsig = msg.state_chain_sig)
    (hkp : lookupT db.ecdsa msg.shared_key_id = none) :
    transfer_receiver o db msg nid bl now =
      (.error (.DBError .NoDataForID), db) := by
  unfold transfer_receiver get_ecdsa_keypair
  simp only [get_transfer_data, hlook, hkp, hsig]
  rw [if_neg (by simp)]

/-- C1 counterexample: in a concrete state with no user session at all —
so the request's shared_key_id does not identify a valid user session —
transfer_receiver nevertheless succeeds (so it neither fails with
AuthError nor leaves the state unchanged). -/
theorem C1_counterexample :
    (lookupT dbW.usersession msgW.shared_key_id).isNone = true ∧
    (transfer_receiver oW dbW msgW 7 3600 0).1.isOk = true := by
  exact ⟨by decide, by decide⟩

theorem C1_witness :
    lookupT dbW_noecdsa.ecdsa msgW.shared_key_id = none ∧
    transfer_receiver oW dbW_noecdsa msgW 7 3600 0 =
      (.error (.DBError .NoDataForID), dbW_noecdsa) :=
  ⟨by decide,
   C1_receiver_no_auth oW dbW_noecdsa msgW 7 3600 0
     { statechainsig := sigW, x1 := 1 }
     (by decide) (by decide) (by decide)⟩

/-- C6 (amended): once the cryptographic checks pass, transfer_receiver
(a) enrolls into the batch — when the request carries batch_data and the
batch has not ended, it sets state_chains[state_chain_id] = true, appends
the TransferFinalizeData to the batch's finalized data, touches no other
table (so nothing is finalized), and succeeds; (b) when the request
carries batch_data but the batch has ended, it fails with the "Transfer
batch ended" error, changing nothing and never calling transfer_finalize;
and (c) only when batch_data is absent does it call transfer_finalize and
return its outcome. -/
theorem C6_batch_or_finalize (o : Oracle) (db : DB) (msg : TransferMsg4)
    (nid : Uuid) (bl now : Int) (td : TransferRow) (kp : ECDSAKeypair)
    (hlook : lookupT db.transfer msg.state_chain_id = some td)
    (hsig : td.statechainsig = msg.state_chain_sig)
    (hkp : get_ecdsa_keypair db msg.shared_key_id = .ok kp)
    (hlt : (msg.t2 * FE.invert td.x1 * kp.party_1_private).val < secq / 3)
    (heq : kp.party_2_public * kp.party_1_private =
      msg.o2_pub * (msg.t2 * FE.invert td.x1 * kp.party_1_private)) :
    (∀ bd row, msg.batch_data = some bd →
      lookupT db.transferbatch bd.id = some row →
      transfer_batch_is_ended row.starttime bl now = false →
      transfer_receiver o db msg nid bl now =
        (.ok (receiverMsg5 msg td kp nid),
         enrollResultDB db bd.id row msg.state_chain_id
           (receiverFinalizeData msg td kp nid))) ∧
    (∀ bd row, msg.batch_data = some bd →
      lookupT db.transferbatch bd.id = some row →
      transfer_batch_is_ended row.starttime bl now = true →
      transfer_receiver o db msg nid bl now =
        (.error (.Generic "Transfer batch ended. Too late to complete transfer."),
         db)) ∧
    (msg.batch_data = none →
      transfer_receiver o db msg nid bl now =
        ((transfer_finalize o db (receiverFinalizeData msg td kp nid)).1.map
           (fun _ => receiverMsg5 msg td kp nid),
         (transfer_finalize o db (receiverFinalizeData msg td kp nid)).2)) := by
  refine ⟨?_, ?_, ?_⟩
  · intro bd row hbd hrow hended
    unfold transfer_receiver
    simp only [get_transfer_data, hlook, hkp, hsig]
    rw [if_neg (by simp)]
    rw [if_neg (not_le.mpr hlt)]
    rw [if_neg (not_not_intro heq)]
    rw [hbd]
    simp only [get_finalize_batch_data, hrow, hended, Bool.false_eq_true,
      if_false]
    unfold update_finalize_batch_data
    rw [hrow]
    simp only [receiverMsg5, receiverFinalizeData, batchRowAfterEnroll,
      enrollResultDB, hbd, hsig]
  · intro bd row hbd hrow hended
    unfold transfer_receiver
    simp only [get_transfer_data, hlook, hkp, hsig]
    rw [if_neg (by simp)]
    rw [if_neg (not_le.mpr hlt)]
    rw [if_neg (not_not_intro heq)]
    rw [hbd]
    simp only [get_finalize_batch_data, hrow, hended, if_true]
  · intro hnone
    unfold transfer_receiver
    simp only [get_transfer_data, hlook, hkp, hsig]
    rw [if_neg (by simp)]
    rw [if_neg (not_le.mpr hlt)]
    rw [if_neg (not_not_intro heq)]
    rw [hnone]
    simp only [receiverFinalizeData, receiverMsg5, hnone, hsig]
    cases hf : transfer_finalize o db
        { new_shared_key_id := nid,
          state_chain_id := msg.state_chain_id,
          state_chain_sig := msg.state_chain_sig,
          s2 := msg.t2 * FE.invert td.x1 * kp.party_1_private,
          new_tx_backup := msg.tx_backup,
          batch_data := none } with
    | mk r db2 =>
      cases r with
      | error e => simp [Except.map]
      | ok v => simp [Except.map]

/-- C6 counterexample: at a concrete state whose batch 3 has ended at
time 99999 (start_time 0, batch_lifetime 3600), transfer_receiver with a
batch_data for that batch returns the "Transfer batch ended" error and
leaves the state unchanged, even though a transfer_finalize call on the
same state would have succeeded — so, contrary to the claim, the
"otherwise" cases beyond an un-ended batch do not all call
transfer_finalize. -/
theorem C6_counterexample :
    transfer_batch_is_ended batchRowW.starttime 3600 99999 = true ∧
    transfer_receiver oW dbW_batch msgW_batch 7 3600 99999 =
      (.error (.Generic "Transfer batch ended. Too late to complete transfer."),
       dbW_batch) ∧
    (transfer_finalize oW dbW_batch
        (receiverFinalizeData msgW_batch { statechainsig := sigW, x1 := 1 }
          { party_1_private := 1, party_2_public := 1 } 7)).1.isOk = true := by
  exact ⟨by decide, by decide, by decide⟩

theorem C6_witness :
    lookupT dbW_batch.transferbatch 3 = some batchRowW ∧
    transfer_batch_is_ended batchRowW.starttime 3600 0 = false ∧
    transfer_receiver oW dbW_batch msgW_batch 7 3600 0 =
      (.ok (receiverMsg5 msgW_batch { statechainsig := sigW, x1 := 1 }
          { party_1_private := 1, party_2_public := 1 } 7),
       enrollResultDB dbW_batch 3 batchRowW 9
         (receiverFinalizeData msgW_batch { statechainsig := sigW, x1 := 1 }
           { party_1_private := 1, party_2_public := 1 } 7)) ∧
    transfer_batch_is_ended batchRowW.starttime 3600 99999 = true ∧
    transfer_receiver oW dbW_batch msgW_batch 7 3600 99999 =
      (.error (.Generic "Transfer batch ended. Too late to complete transfer."),
       dbW_batch) :=
  ⟨by decide, by decide,
   (C6_batch_or_finalize oW dbW_batch msgW_batch 7 3600 0
       { statechainsig := sigW, x1 := 1 }
       { party_1_private := 1, party_2_public := 1 }
       (by decide) (by decide) (by decide) (by decide) (by decide)).1
     { id := 3, commitment := "" } batchRowW (by decide) (by decide) (by decide),
   by decide,
   (C6_batch_or_finalize oW dbW_batch msgW_batch 7 3600 99999
       { statechainsig := sigW, x1 := 1 }
       { party_1_private := 1, party_2_public := 1 }
       (by decide) (by decide) (by decide) (by decide) (by decide)).2.1
     { id := 3, commitment := "" } batchRowW (by decide) (by decide) (by decide)⟩

/-- C9: batch enrollment does not check membership — when the batch
exists and has not ended, transfer_receiver succeeds even though
state_chain_id is not a key of the batch's state_chains map, and inserts
the id with value true, growing the map by one entry. -/
theorem C9_batch_enroll_no_membership (o : Oracle) (db : DB)
    (msg : TransferMsg4) (nid : Uuid) (bl now : Int) (td : TransferRow)
    (kp : ECDSAKeypair) (bd : BatchData) (row : TransferBatchRow)
    (hlook : lookupT db.transfer msg.state_chain_id = some td)
    (hsig : td.statechainsig = msg.state_chain_sig)
    (hkp : get_ecdsa_keypair db msg.shared_key_id = .ok kp)
    (hlt : (msg.t2 * FE.invert td.x1 * kp.party_1_private).val < secq / 3)
    (heq : kp.party_2_public * kp.party_1_private =
      msg.o2_pub * (msg.t2 * FE.invert td.x1 * kp.party_1_private))
    (hbd : msg.batch_data = some bd)
    (hrow : lookupT db.transferbatch bd.id = some row)
    (hended : transfer_batch_is_ended row.starttime bl now = false)
    (hnotmem : lookupT row.statechains msg.state_chain_id = none) :
    transfer_receiver o db msg nid bl now =
      (.ok (receiverMsg5 msg td kp nid),
       enrollResultDB db bd.id row msg.state_chain_id
         (receiverFinalizeData msg td kp nid)) ∧
    (batchRowAfterEnroll row msg.state_chain_id
        (receiverFinalizeData msg td kp nid)).statechains =
      row.statechains ++ [(msg.state_chain_id, true)] ∧
    lookupT (batchRowAfterEnroll row msg.state_chain_id
        (receiverFinalizeData msg td kp nid)).statechains
      msg.state_chain_id = some true ∧
    (batchRowAfterEnroll row msg.state_chain_id
        (receiverFinalizeData msg td kp nid)).statechains.length =
      row.statechains.length + 1 := by
  have hins : insertMap row.statechains msg.state_chain_id true =
      row.statechains ++ [(msg.state_chain_id, true)] :=
    insertMap_of_lookup_none hnotmem true
  refine ⟨?_, ?_, ?_, ?_⟩
  · unfold transfer_receiver
    simp only [get_transfer_data, hlook, hkp, hsig]
    rw [if_neg (by simp)]
    rw [if_neg (not_le.mpr hlt)]
    rw [if_neg (not_not_intro heq)]
    rw [hbd]
    simp only [get_finalize_batch_data, hrow, hended, Bool.false_eq_true,
      if_false]
    unfold update_finalize_batch_data
    rw [hrow]
    simp only [receiverMsg5, receiverFinalizeData, batchRowAfterEnroll,
      enrollResultDB, hbd, hsig]
  · simp only [batchRowAfterEnroll, hins]
  · simp only [batchRowAfterEnroll, hins]
    exact lookupT_append_right hnotmem true
  · simp only [batchRowAfterEnroll, hins, List.length_append,
      List.length_singleton]

theorem C9_witness :
    lookupT batchRowW.statechains msgW_batch.state_chain_id = none ∧
    (transfer_receiver oW dbW_batch msgW_batch 8 3600 0).1.isOk = true ∧
    lookupT (batchRowAfterEnroll batchRowW 9
        (receiverFinalizeData msgW_batch { statechainsig := sigW, x1 := 1 }
          { party_1_private := 1, party_2_public := 1 } 8)).statechains 9 =
      some true :=
  ⟨by decide,
   by
     rw [(C9_batch_enroll_no_membership oW dbW_batch msgW_batch 8 3600 0
         { statechainsig := sigW, x1 := 1 }
         { party_1_private := 1, party_2_public := 1 }
         { id := 3, commitment := "" } batchRowW
         (by decide) (by decide) (by decide) (by decide) (by decide)
         (by decide) (by decide) (by decide) (by decide)).1]
     rfl,
   (C9_batch_enroll_no_membership oW dbW_batch msgW_batch 8 3600 0
       { statechainsig := sigW, x1 := 1 }
       { party_1_private := 1, party_2_public := 1 }
       { id := 3, commitment := "" } batchRowW
       (by decide) (by decide) (by decide) (by decide) (by decide)
       (by decide) (by decide) (by decide) (by decide)).2.2.1⟩

theorem foldr_max_init (l : List Nat) (b : Nat) :
    l.foldr max b = max (l.foldr max 0) b := by
  induction l with
  | nil => simp
  | cons a rest ih =>
    simp only [List.foldr_cons, ih]
    omega

theorem root_get_current_id_insert (db : DB) (rt : Root) :
    root_get_current_id (root_insert db rt) =
      max (root_get_current_id db) (db.rootSerial + 1) := by
  unfold root_get_current_id root_insert
  simp only [List.map_append, List.foldr_append, List.map_cons,
    List.foldr_cons, List.map_nil, List.foldr_nil]
  rw [foldr_max_init]
  omega

theorem le_foldr_max {l : List Nat} {a : Nat} (h : a ∈ l) :
    a ≤ l.foldr max 0 := by
  induction l with
  | nil => cases h
  | cons b rest ih =>
    simp only [List.foldr_cons]
    cases h with
    | head => exact Nat.le_max_left _ _
    | tail _ hm => exact le_trans (ih hm) (Nat.le_max_right _ _)

/-- C7: Root ids are strictly increasing and dense: a sequence of
successful root_update calls on fresh roots (id unset) assigns the
consecutive ids MAX+1, MAX+2, ... (`List.range'` of consecutive naturals
starting just above the current maximum id, given that the BIGSERIAL
counter agrees with that maximum, as it does on every insert-only table);
and root_update on a root carrying an existing id succeeds only when the
stored root at that id has the same hash. -/
theorem C7_root_ids :
    (∀ (db : DB) (rs : List Root),
      db.rootSerial = root_get_current_id db →
      (∀ r ∈ rs, r.id = none) →
      (rootUpdateSeq db rs).1 =
        List.range' (root_get_current_id db + 1) rs.length) ∧
    (∀ (db : DB) (rt : Root) (id : Nat), rt.id = some id →
      (root_update db rt).1.isOk = true →
      ∃ row, lookupT db.root id = some row ∧ row.value = rt.value) := by
  constructor
  · intro db rs
    induction rs generalizing db with
    | nil => intro _ _; rfl
    | cons r rest ih =>
      intro hser hall
      have hid : r.id = none := hall r (List.mem_cons_self _ _)
      have hstep : root_update db r =
          (.ok (root_get_current_id db + 1),
           root_insert db { r with id := some (root_get_current_id db + 1) }) := by
        unfold root_update
        rw [hid]
      have hser2 : (root_insert db
            { r with id := some (root_get_current_id db + 1) }).rootSerial =
          root_get_current_id (root_insert db
            { r with id := some (root_get_current_id db + 1) }) := by
        rw [root_get_current_id_insert]
        simp only [root_insert]
        omega
      have hcur2 : root_get_current_id (root_insert db
            { r with id := some (root_get_current_id db + 1) }) =
          root_get_current_id db + 1 := by
        rw [root_get_current_id_insert]
        omega
      unfold rootUpdateSeq
      rw [hstep]
      simp only []
      rw [ih _ hser2 (fun x hx => hall x (List.mem_cons_of_mem _ hx)), hcur2]
      rfl
  · intro db rt id hid hok
    unfold root_update at hok
    rw [hid] at hok
    simp only [] at hok
    unfold get_root at hok
    by_cases h0 : id = 0
    · rw [if_pos h0] at hok
      simp [Except.isOk, Except.toBool] at hok
    · rw [if_neg h0] at hok
      cases hl : lookupT db.root id with
      | none => rw [hl] at hok; simp [Except.isOk, Except.toBool] at hok
      | some row =>
        rw [hl] at hok
        simp only [] at hok
        by_cases hv : row.value = rt.value
        · exact ⟨row, rfl, hv⟩
        · rw [if_pos hv] at hok
          simp [Except.isOk, Except.toBool] at hok

theorem C7_witness :
    dbEmpty.rootSerial = root_get_current_id dbEmpty ∧
    (rootUpdateSeq dbEmpty [rootA, rootB]).1 =
      List.range' (root_get_current_id dbEmpty + 1) 2 ∧
    (root_update dbW_root rootC).1.isOk = true ∧
    (∃ row, lookupT dbW_root.root 1 = some row ∧ row.value = rootC.value) :=
  ⟨by decide,
   C7_root_ids.1 dbEmpty [rootA, rootB] (by decide) (by decide),
   by decide,
   C7_root_ids.2 dbW_root rootC 1 (by decide) (by decide)⟩

theorem descList_eq (n : Nat) :
    (List.range n).map (fun i => n - i) = descList n := by
  induction n with
  | zero => rfl
  | succ n ih =>
    rw [List.range_succ_eq_map]
    simp only [List.map_cons, Nat.sub_zero, List.map_map]
    rw [descList]
    congr 1
    have hf : ((fun i => n + 1 - i) ∘ Nat.succ) = fun i => n - i := by
      funext i
      simp [Nat.succ_sub_succ]
    rw [hf, ih]

theorem confirmed_scan_none (db : DB)
    (hdense : ∀ i ∈ List.range' 1 (root_get_current_id db),
      (lookupT db.root i).isSome = true)
    (hnone : ∀ p ∈ db.root, p.2.commitmentinfo = none) :
    ∀ c, c ≤ root_get_current_id db →
      confirmed_scan db (descList c) = .ok none := by
  intro c
  induction c with
  | zero => intro _; rfl
  | succ n ih =>
    intro hc
    rw [descList]
    unfold confirmed_scan
    have hne : (n+1) ≠ 0 := Nat.succ_ne_zero n
    have hd : (lookupT db.root (n+1)).isSome = true := by
      apply hdense
      rw [List.mem_range'_1]
      omega
    cases hl : lookupT db.root (n+1) with
    | none => rw [hl] at hd; simp at hd
    | some row =>
      have hci : row.commitmentinfo = none := hnone (n+1, row) (lookupT_mem hl)
      unfold get_root
      rw [if_neg hne, hl]
      simp only [Root.is_confirmed, hci, Option.isSome_none,
        Bool.false_eq_true, if_false]
      exact ih (by omega)

theorem confirmed_scan_found (db : DB)
    (hdense : ∀ i ∈ List.range' 1 (root_get_current_id db),
      (lookupT db.root i).isSome = true)
    (m : Nat) (row : RootRow)
    (hm : lookupT db.root m = some row)
    (hm1 : 1 ≤ m)
    (hconf : row.commitmentinfo.isSome = true)
    (hmax : ∀ p ∈ db.root, p.2.commitmentinfo.isSome = true → p.1 ≤ m) :
    ∀ c, m ≤ c → c ≤ root_get_current_id db →
      confirmed_scan db (descList c) =
        .ok (some { id := some m, value := row.value,
                    commitmentinfo := row.commitmentinfo }) := by
  intro c
  induction c with
  | zero => intro hmc _; omega
  | succ n ih =>
    intro hmc hc
    rw [descList]
    unfold confirmed_scan
    have hne : (n+1) ≠ 0 := Nat.succ_ne_zero n
    have hd : (lookupT db.root (n+1)).isSome = true := by
      apply hdense
      rw [List.mem_range'_1]
      omega
    cases hl : lookupT db.root (n+1) with
    | none => rw [hl] at hd; simp at hd
    | some row2 =>
      unfold get_root
      rw [if_neg hne, hl]
      by_cases heqm : n + 1 = m
      · have hrow : row2 = row := by
          rw [heqm] at hl
          rw [hl] at hm
          injection hm
        subst hrow
        simp only [Root.is_confirmed, hconf, if_true, heqm]
      · have hlow : row2.commitmentinfo.isSome = false := by
          cases hb : row2.commitmentinfo.isSome with
          | false => rfl
          | true =>
            have := hmax (n+1, row2) (lookupT_mem hl) hb
            omega
        simp only [Root.is_confirmed, hlow, Bool.false_eq_true, if_false]
        exact ih (by omega) (by omega)

/-- C8: get_confirmed_smt_root returns the stored Root with the greatest
id among those whose commitment_info is set (the downward scan stops at
the first confirmed root), and None when no stored root is confirmed —
for any Root table with keys at least 1 and dense up to the maximum id,
which is what consecutive BIGSERIAL inserts produce. -/
theorem C8_confirmed_root (db : DB)
    (h1 : ∀ p ∈ db.root, 1 ≤ p.1)
    (hdense : ∀ i ∈ List.range' 1 (root_get_current_id db),
      (lookupT db.root i).isSome = true) :
    ((∀ p ∈ db.root, p.2.commitmentinfo = none) →
      get_confirmed_smt_root db = .ok none) ∧
    (∀ m row, lookupT db.root m = some row →
      row.commitmentinfo.isSome = true →
      (∀ p ∈ db.root, p.2.commitmentinfo.isSome = true → p.1 ≤ m) →
      get_confirmed_smt_root db =
        .ok (some { id := some m, value := row.value,
                    commitmentinfo := row.commitmentinfo })) := by
  have hrw : get_confirmed_smt_root db =
      confirmed_scan db (descList (root_get_current_id db)) := by
    unfold get_confirmed_smt_root
    rw [descList_eq]
  constructor
  · intro hnone
    rw [hrw]
    exact confirmed_scan_none db hdense hnone _ le_rfl
  · intro m row hm hconf hmax
    rw [hrw]
    have hmem := lookupT_mem hm
    have hm1 : 1 ≤ m := h1 (m, row) hmem
    have hmc : m ≤ root_get_current_id db := by
      unfold root_get_current_id
      exact le_foldr_max (List.mem_map_of_mem _ hmem)
    exact confirmed_scan_found db hdense m row hm hm1 hconf hmax _ hmc le_rfl

theorem C8_witness :
    get_confirmed_smt_root dbW_roots =
      .ok (some { id := some 2, value := 20, commitmentinfo := some 7 }) :=
  (C8_confirmed_root dbW_roots (by decide) (by decide)).2 2
    { value := 20, commitmentinfo := some 7 } (by decide) (by decide)
    (by decide)

end Mercury
